import Mathlib

/-!
Shallow embedding of the benefice demo workload executor (src/main.rs).

The repository ships a single source file, `src/main.rs`, which contains the
HTTP handlers `root_get`, `root_post`, `root_delete` and `reader`, the
`Limits` structure with its `decide` method, and the constants `READ_TIMEOUT`
and `TOML_MAX`.  The sibling modules `jobs`, `ports`, `data`, `auth`,
`redirect`, `templates` are referenced but their sources are not in the
repository snapshot; where a claim depends on their behaviour the
corresponding definition below is modelled from the specification and marked
`Modelled from the spec:` in its doc comment.

Conventions of the embedding:
* machine integers (`usize`, `u16`, `u64`) become `Nat`; no arithmetic here
  can overflow in the source's domain, so no modular reduction is needed;
* async control flow becomes explicit state passing over a `St` record that
  holds the session's job slot, the global live-job counter and the port
  registry;
* interleaving of other tasks between the optimistic pre-check and the
  committing critical section is modelled by an arbitrary state
  transformer `interfere` applied at the moment the session write lock is
  acquired;
* fallible operations return `Except Resp`.
-/

/-- A live job: its UUID and the listen ports it holds.
Mirrors the fields of `jobs::Job` that `main.rs` observes (`job.uuid`,
the ports passed to `jobs::Job::new`). -/
structure Job where
  uuid : Nat
  ports : List Nat
deriving Repr, DecidableEq

/-- The shared mutable state visible to one request handler:
`sessionJob` is the current user's session job slot (`user.data.job()`),
`jobCount` is the process-wide live-job counter (`jobs::Job::count()`),
`reserved` is the global port registry of the `ports` module. -/
structure St where
  sessionJob : Option Job
  jobCount : Nat
  reserved : List Nat
deriving Repr, DecidableEq

/-- `const TOML_MAX: usize = 256 * 1024;` (src/main.rs line 42). -/
def TOML_MAX : Nat := 256 * 1024

/-- `READ_TIMEOUT` in milliseconds (src/main.rs line 41). -/
def READ_TIMEOUT_MS : Nat := 500

/-- The fixed read buffer capacity of `reader`: `let mut buf = [0; 4096];`. -/
def BUF_CAP : Nat := 4096

/-- The `Limits` structure of src/main.rs (durations in seconds, sizes in
MiB, exactly as carried by the source struct). -/
structure Limits where
  size_limit_default : Nat
  size_limit_starred : Nat
  timeout_default : Nat
  timeout_starred : Nat
deriving Repr, DecidableEq

/-- `Limits::decide` (src/main.rs lines 152-166): pure selection of
(ttl, size) by the boolean quota tier. -/
def Limits.decide (l : Limits) (star : Bool) : Nat × Nat :=
  let size := match star with
    | false => l.size_limit_default
    | true => l.size_limit_starred
  let ttl := match star with
    | false => l.timeout_default
    | true => l.timeout_starred
  (ttl, size)

/-- The HTTP-level rejection responses produced by `root_post` and `reader`.
Each constructor corresponds to one `return Err(...)` site in src/main.rs. -/
inductive Resp
  | redirectRoot
  | tooManyWorkloads
  | badRequest
  | unsupportedMediaType
  | payloadTooLarge
  | internalServerError
  | notFound
  | illegalPorts (ps : List Nat)
  | portConflicts (ps : List Nat)
deriving Repr, DecidableEq

/-! ## Output reader (`reader`, src/main.rs lines 457-471) -/

/-- Outcome of `timeout(READ_TIMEOUT, job.read(kind, &mut buf)).await`:
either the deadline elapsed (`timedOut`, the `Err(..)` arm of `timeout`),
or the read finished with an I/O failure (`ioErr`), or it finished having
placed `size` bytes in the buffer (`got size`). -/
inductive ReadOutcome
  | timedOut
  | ioErr
  | got (size : Nat)
deriving Repr, DecidableEq

/-- `reader` (src/main.rs lines 457-471).  `jobPresent` is whether
`user.data.job_mut()` is `Some`; `buf` is the contents of the 4096-byte
buffer after the read attempt; `r` is the outcome of the timed read. -/
def reader (jobPresent : Bool) (buf : List Nat) (r : ReadOutcome) :
    Except Resp (List Nat) :=
  match jobPresent with
  | false => .error .notFound
  | true =>
    match r with
    | .ioErr => .error .internalServerError
    | .got size => .ok (buf.take size)
    | .timedOut => .ok []

/-! ## Index page (`root_get`, src/main.rs lines 255-278) -/

/-- The two pages `root_get` can render. -/
inductive Page
  | jobPage
  | idxPage (user star : Bool) (size : Nat) (ttl : Nat)
deriving Repr, DecidableEq

/-- Observable side effects of `root_get`: the starred-tier lookup
(`user.is_starred("enarx/enarx")`) and the limits decision
(`limits.decide(star)`). -/
inductive GEff
  | starLookup
  | limitsDecide
deriving Repr, DecidableEq

/-- `root_get` (src/main.rs lines 255-278).  `auth` is `none` for an
unauthenticated request, and `some (hasJob, starred)` for an authenticated
user, where `starred` is what the tier lookup would return if performed.
The effect list records, in order, which external operations the handler
actually evaluates. -/
def root_get (auth : Option (Bool × Bool)) (limits : Limits) :
    Page × List GEff :=
  match auth with
  | none =>
    let ts := limits.decide false
    (Page.idxPage false false ts.2 ts.1, [GEff.limitsDecide])
  | some (hasJob, star) =>
    match hasJob with
    | true => (Page.jobPage, [])
    | false =>
      let ts := limits.decide star
      (Page.idxPage true star ts.2 ts.1, [GEff.starLookup, GEff.limitsDecide])

/-! ## Ingestion pipeline (the multipart loop of `root_post`,
src/main.rs lines 300-374) -/

/-- One multipart field as `root_post` observes it: its name
(`field.name()`), its declared content type (`field.content_type()`), and
the successive chunks delivered by `field.chunk()` (each chunk a byte
list). -/
structure UField where
  name : Option String
  contentType : Option String
  chunks : List (List Nat)
deriving Repr, DecidableEq

/-- Total number of bytes in a chunk list. -/
def chunksLen (cs : List (List Nat)) : Nat := (cs.map List.length).sum

/-- The per-field streaming loop of `root_post` (lines 318-334 for "wasm",
lines 348-364 for "toml"): starting from `len` bytes already counted,
add each chunk's length, abort as soon as the running total exceeds
`limit` (the chunk that overflows is never written), otherwise append the
chunk to the staged output.  On abort the `Except.error` carries the bytes
staged so far. -/
def streamChunks (limit : Nat) (cs : List (List Nat)) (len : Nat)
    (acc : List Nat) : Except (List Nat) (List Nat) :=
  match cs with
  | [] => .ok acc
  | c :: rest =>
    if limit < len + c.length then .error acc
    else streamChunks limit rest (len + c.length) (acc ++ c)

/-- The `while let Some(field) = multipart.next_field()` loop of
`root_post` (src/main.rs lines 303-371): `w`/`t` are the `wasm`/`toml`
option accumulators; each field is dispatched on its name exactly as the
source `match field.name()` does. -/
def ingestLoop (wasmLimit : Nat) (fields : List UField)
    (w t : Option (List Nat)) :
    Except Resp (Option (List Nat) × Option (List Nat)) :=
  match fields with
  | [] => .ok (w, t)
  | f :: rest =>
    if f.name = some "wasm" then
      if f.contentType ≠ some "application/wasm" then
        .error .unsupportedMediaType
      else if w.isSome then .error .badRequest
      else
        match streamChunks wasmLimit f.chunks 0 [] with
        | .error _ => .error .payloadTooLarge
        | .ok bytes => ingestLoop wasmLimit rest (some bytes) t
    else if f.name = some "toml" then
      if f.contentType.isSome then .error .badRequest
      else if t.isSome then .error .badRequest
      else
        match streamChunks TOML_MAX f.chunks 0 [] with
        | .error _ => .error .payloadTooLarge
        | .ok bytes => ingestLoop wasmLimit rest w (some bytes)
    else ingestLoop wasmLimit rest w t

/-- The multipart loop followed by
`wasm.ok_or(BAD_REQUEST)? / toml.ok_or(BAD_REQUEST)?`
(src/main.rs lines 373-374). -/
def ingest (wasmLimit : Nat) (fields : List UField) :
    Except Resp (List Nat × List Nat) :=
  match ingestLoop wasmLimit fields none none with
  | .error e => .error e
  | .ok (w, t) =>
    match w with
    | none => .error .badRequest
    | some wb =>
      match t with
      | none => .error .badRequest
      | some tb => .ok (wb, tb)

/-! ## Port registry and admission -/

/-- Modelled from the spec: `ports::try_reserve` (§4.2; the `ports` module
is not in the repository snapshot).  Atomic all-or-nothing multi-port
reservation under the registry lock: if any requested port is already
held, fail with the set of every conflicting port and change nothing;
otherwise mark all requested ports held.  When the operator flag
`shared_port_protections` is off, `root_post` skips the call entirely
(src/main.rs line 396). -/
def tryReserve (enabled : Bool) (ports : List Nat) (s : St) :
    Except (List Nat) St :=
  match enabled with
  | false => .ok s
  | true =>
    let confl := ports.filter (fun p => s.reserved.contains p)
    if confl = [] then .ok { s with reserved := s.reserved ++ ports }
    else .error confl

/-- The committing critical section of `root_post` (src/main.rs lines
404-423), executed while holding the session's write lock on state `s`:
re-check the session slot, re-check the global ceiling, spawn
(`jobs::Job::new`, whose success is the oracle bit `spawnOk`; modelled
from spec §4.1: on success the live count is incremented and the job owns
`ports`), and install the new job into the slot. -/
def commitJob (jobsMax : Nat) (spawnOk : Bool) (uuid : Nat)
    (ports : List Nat) (s : St) : Except Resp (Nat × St) :=
  match s.sessionJob with
  | some _ => .error .redirectRoot
  | none =>
    if jobsMax ≤ s.jobCount then .error .tooManyWorkloads
    else
      match spawnOk with
      | false => .error .internalServerError
      | true =>
        .ok (uuid,
          { s with sessionJob := some { uuid := uuid, ports := ports },
                   jobCount := s.jobCount + 1 })

/-! ## `root_post` (src/main.rs lines 281-444) -/

/-- Operator configuration relevant to `root_post`: the limits, the
shared-port-protection flag, the allowed listen-port range
(`port_min..port_max` built in `Args::split`, line 136), and the global
job ceiling. -/
structure Cfg where
  limits : Limits
  shared_port_protections : Bool
  port_min : Nat
  port_max : Nat
  jobs : Nat
deriving Repr, DecidableEq

/-- One job-creation request: the caller's quota tier as the starred
lookup would report it, and the multipart fields of the upload stream. -/
structure Req where
  star : Bool
  fields : List UField
deriving Repr, DecidableEq

/-- Environment oracle for one `root_post` run:
`parsePorts` is `ports::get_listen_ports` (modelled from the spec §4.2:
extracts the declared listen ports from the configuration text, `none` on
malformed input; the `ports` module is not in the snapshot);
`interfere` is the state change performed by other concurrent tasks
between the optimistic pre-check and the acquisition of the session write
lock; `spawnOk` is whether `jobs::Job::new` succeeds; `uuid` is the fresh
identifier the spawned job receives. -/
structure Oracle where
  parsePorts : List Nat → Option (List Nat)
  interfere : St → St
  spawnOk : Bool
  uuid : Nat

/-- Expensive work performed by `root_post` after the optimistic
pre-check, recorded in order: streaming the multipart upload, spawning
the process, installing the job. -/
inductive Eff
  | upload
  | spawned
  | installed (uuid : Nat)
deriving Repr, DecidableEq

/-- `root_post` (src/main.rs lines 281-444) as a state transformer.
Control flow mirrors the source exactly:
1. `limits.decide(is_starred)` (line 290);
2. optimistic pre-check: session slot (line 292), global ceiling
   (line 296);
3. the multipart streaming loop and the `ok_or` checks (lines 300-374);
4. `get_listen_ports` (line 380, `BAD_REQUEST` on failure);
5. the illegal-port filter against `port_range` = `port_min..port_max`,
   a half-open Rust `Range` (lines 385-394);
6. `ports::try_reserve` when protections are on (lines 396-401);
7. the committing critical section under the session write lock
   (lines 403-423), entered on the state as mutated by concurrent tasks
   (`o.interfere`). -/
def root_post (cfg : Cfg) (req : Req) (o : Oracle) (s : St) :
    Except Resp Unit × St × List Eff :=
  let ts := cfg.limits.decide req.star
  match s.sessionJob with
  | some _ => (.error .redirectRoot, s, [])
  | none =>
    if cfg.jobs ≤ s.jobCount then (.error .tooManyWorkloads, s, [])
    else
      match ingest (ts.2 * 1024 * 1024) req.fields with
      | .error e => (.error e, s, [.upload])
      | .ok pair =>
        match o.parsePorts pair.2 with
        | none => (.error .badRequest, s, [.upload])
        | some ports =>
          let illegal := ports.filter
            (fun p => !(decide (cfg.port_min ≤ p) && decide (p < cfg.port_max)))
          if illegal = [] then
            match tryReserve cfg.shared_port_protections ports s with
            | .error confl => (.error (.portConflicts confl), s, [.upload])
            | .ok s1 =>
              let s2 := o.interfere s1
              match commitJob cfg.jobs o.spawnOk o.uuid ports s2 with
              | .error e => (.error e, s2, [.upload])
              | .ok us => (.ok (), us.2, [.upload, .spawned, .installed us.1])
          else (.error (.illegalPorts illegal), s, [.upload])

/-! ## Timeout task (src/main.rs lines 425-437) and job reaping -/

/-- Modelled from the spec: `Data::kill_job` (§4.1 `kill`; the `data` and
`jobs` modules are not in the snapshot): terminate the process, release
the job's ports from the registry, decrement the live count, clear the
session slot.  A no-op when the slot is empty. -/
def killJob (s : St) : St :=
  match s.sessionJob with
  | none => s
  | some j =>
    { sessionJob := none,
      jobCount := s.jobCount - 1,
      reserved := s.reserved.filter (fun p => !(j.ports.contains p)) }

/-- The deferred timeout task spawned by `root_post` (src/main.rs lines
425-437) at the moment its sleep elapses.  `upgraded` is the result of
`weak.upgrade()`: `none` when no strong holder of the session remains (the
task does nothing and owns no state), `some s` the session state found
under the write lock.  `uuid` is the identifier captured at scheduling
time.  The result is the session state after the task, `none` exactly
when the upgrade failed. -/
def timeoutFire (upgraded : Option St) (uuid : Nat) : Option St :=
  match upgraded with
  | none => none
  | some s =>
    if s.sessionJob.map Job.uuid = some uuid then some (killJob s)
    else some s

/-! ## Concrete sample values used by witnesses and evaluations -/

/-- A sample operator configuration: the source's default limits
(10/50 MiB, 300/900 s), protections on, port range 2000..30000,
global ceiling 1. -/
def cfg0 : Cfg :=
  { limits := { size_limit_default := 10, size_limit_starred := 50,
                timeout_default := 300, timeout_starred := 900 },
    shared_port_protections := true,
    port_min := 2000, port_max := 30000, jobs := 1 }

/-- A well-formed "wasm" part: correct content type, one 1-byte chunk. -/
def wasmField0 : UField :=
  { name := some "wasm", contentType := some "application/wasm",
    chunks := [[1]] }

/-- A well-formed "toml" part: no content type, one 1-byte chunk. -/
def tomlField0 : UField :=
  { name := some "toml", contentType := none, chunks := [[2]] }

/-- A malformed "toml" part that declares a content type. -/
def tomlFieldTyped : UField :=
  { name := some "toml", contentType := some "text/plain", chunks := [] }

/-- A well-formed job-creation request from a non-starred user. -/
def req0 : Req := { star := false, fields := [wasmField0, tomlField0] }

/-- Idle initial state: empty slot, zero live jobs, empty registry. -/
def st0 : St := { sessionJob := none, jobCount := 0, reserved := [] }

/-- A live job holding port 2500 with uuid 5. -/
def job0 : Job := { uuid := 5, ports := [2500] }

/-- State of a user whose slot is already occupied by `job0`. -/
def stBusy : St := { sessionJob := some job0, jobCount := 1, reserved := [2500] }

/-- Benign oracle: config parses to port 2500, no interference,
spawn succeeds, fresh uuid 7. -/
def o0 : Oracle :=
  { parsePorts := fun _ => some [2500], interfere := fun s => s,
    spawnOk := true, uuid := 7 }

/-- Oracle in which `jobs::Job::new` fails (spawn error). -/
def oSpawnFail : Oracle :=
  { parsePorts := fun _ => some [2500], interfere := fun s => s,
    spawnOk := false, uuid := 7 }

/-- Oracle whose configuration declares exactly the boundary port
`port_max` = 30000. -/
def oBoundary : Oracle :=
  { parsePorts := fun _ => some [30000], interfere := fun s => s,
    spawnOk := true, uuid := 7 }

/-! ## Helper lemmas -/

/-- Unfolding of `chunksLen` on a cons cell. -/
theorem chunksLen_cons (c : List Nat) (rest : List (List Nat)) :
    chunksLen (c :: rest) = c.length + chunksLen rest := by
  simp [chunksLen]

/-- The streaming loop aborts exactly when the total size exceeds the
limit (given the loop invariant `len ≤ limit`). -/
theorem streamChunks_err_iff (limit : Nat) :
    ∀ (cs : List (List Nat)) (len : Nat) (acc : List Nat), len ≤ limit →
      ((∃ b, streamChunks limit cs len acc = .error b) ↔
        limit < len + chunksLen cs) := by
  intro cs
  induction cs with
  | nil =>
    intro len acc hlen
    simp only [streamChunks, chunksLen, List.map_nil, List.sum_nil]
    constructor
    · rintro ⟨b, hb⟩
      cases hb
    · intro h
      omega
  | cons c rest ih =>
    intro len acc hlen
    rw [chunksLen_cons]
    simp only [streamChunks]
    by_cases h : limit < len + c.length
    · rw [if_pos h]
      constructor
      · intro _
        omega
      · intro _
        exact ⟨acc, rfl⟩
    · rw [if_neg h]
      have h' : len + c.length ≤ limit := Nat.not_lt.mp h
      rw [ih (len + c.length) (acc ++ c) h']
      omega

/-- When the streaming loop aborts, the bytes staged so far never exceed
the limit (the overflowing chunk was not written). -/
theorem streamChunks_err_bound (limit : Nat) :
    ∀ (cs : List (List Nat)) (len : Nat) (acc : List Nat) (b : List Nat),
      len ≤ limit → acc.length = len →
      streamChunks limit cs len acc = .error b → b.length ≤ limit := by
  intro cs
  induction cs with
  | nil =>
    intro len acc b _ _ hb
    cases hb
  | cons c rest ih =>
    intro len acc b hlen hacc hb
    rw [streamChunks] at hb
    by_cases h : limit < len + c.length
    · rw [if_pos h] at hb
      cases hb
      omega
    · rw [if_neg h] at hb
      exact ih (len + c.length) (acc ++ c) b (Nat.not_lt.mp h)
        (by simp [hacc]) hb

/-- A run of the multipart loop over fields none of which is named
"wasm" leaves the wasm accumulator unchanged. -/
theorem ingestLoop_const_wasm (lim : Nat) :
    ∀ (fields : List UField) (w t w' t' : Option (List Nat)),
      (∀ g ∈ fields, g.name ≠ some "wasm") →
      ingestLoop lim fields w t = .ok (w', t') → w' = w := by
  intro fields
  induction fields with
  | nil =>
    intro w t w' t' _ h
    rw [ingestLoop] at h
    cases h
    rfl
  | cons f rest ih =>
    intro w t w' t' hno h
    have hf : ¬ f.name = some "wasm" := hno f (List.mem_cons_self f rest)
    have hrest : ∀ g ∈ rest, g.name ≠ some "wasm" :=
      fun g hg => hno g (List.mem_cons_of_mem f hg)
    rw [ingestLoop, if_neg hf] at h
    by_cases ht : f.name = some "toml"
    · rw [if_pos ht] at h
      by_cases hct : f.contentType.isSome = true
      · rw [if_pos hct] at h
        cases h
      · rw [if_neg hct] at h
        by_cases hts : t.isSome = true
        · rw [if_pos hts] at h
          cases h
        · rw [if_neg hts] at h
          cases hsc : streamChunks TOML_MAX f.chunks 0 [] with
          | error b =>
            rw [hsc] at h
            cases h
          | ok bytes =>
            rw [hsc] at h
            exact ih w (some bytes) w' t' hrest h
    · rw [if_neg ht] at h
      exact ih w t w' t' hrest h

/-- A run of the multipart loop over fields none of which is named
"toml" leaves the toml accumulator unchanged. -/
theorem ingestLoop_const_toml (lim : Nat) :
    ∀ (fields : List UField) (w t w' t' : Option (List Nat)),
      (∀ g ∈ fields, g.name ≠ some "toml") →
      ingestLoop lim fields w t = .ok (w', t') → t' = t := by
  intro fields
  induction fields with
  | nil =>
    intro w t w' t' _ h
    rw [ingestLoop] at h
    cases h
    rfl
  | cons f rest ih =>
    intro w t w' t' hno h
    have hf : ¬ f.name = some "toml" := hno f (List.mem_cons_self f rest)
    have hrest : ∀ g ∈ rest, g.name ≠ some "toml" :=
      fun g hg => hno g (List.mem_cons_of_mem f hg)
    rw [ingestLoop] at h
    by_cases hw : f.name = some "wasm"
    · rw [if_pos hw] at h
      by_cases hct : f.contentType ≠ some "application/wasm"
      · rw [if_pos hct] at h
        cases h
      · rw [if_neg hct] at h
        by_cases hws : w.isSome = true
        · rw [if_pos hws] at h
          cases h
        · rw [if_neg hws] at h
          cases hsc : streamChunks lim f.chunks 0 [] with
          | error b =>
            rw [hsc] at h
            cases h
          | ok bytes =>
            rw [hsc] at h
            exact ih (some bytes) t w' t' hrest h
    · rw [if_neg hw, if_neg hf] at h
      exact ih w t w' t' hrest h

/-! ## Claim theorems -/

/-- Claim C8: the limits decision is a pure function of the boolean quota
tier: `decide true` yields the starred (timeout, size) pair and
`decide false` the default pair, for every `Limits` configuration. -/
theorem limits_decide_pure (l : Limits) :
    l.decide true = (l.timeout_starred, l.size_limit_starred) ∧
    l.decide false = (l.timeout_default, l.size_limit_default) :=
  ⟨rfl, rfl⟩

/-- Claim C10: an unauthenticated index-page request renders with
`user = false`, `star = false` and the non-starred default size limit and
time-to-live; an authenticated user whose session holds a live job gets
the job page immediately, with neither the starred-tier lookup nor the
limits decision performed. -/
theorem root_get_pages (limits : Limits) (star : Bool) :
    root_get none limits =
      (Page.idxPage false false limits.size_limit_default
        limits.timeout_default, [GEff.limitsDecide]) ∧
    root_get (some (true, star)) limits = (Page.jobPage, []) :=
  ⟨rfl, rfl⟩

/-- Claim C5: for a read-output request on an active job, deadline expiry
yields the successful empty result, an error occurs exactly when the
underlying stream read itself fails, and a read reporting zero bytes is a
valid success. -/
theorem reader_timeout_empty_success (buf : List Nat) (r : ReadOutcome) :
    reader true buf ReadOutcome.timedOut = .ok [] ∧
    (reader true buf r = .error .internalServerError ↔ r = .ioErr) ∧
    (∀ e, reader true buf r = .error e → r = .ioErr) ∧
    reader true buf (ReadOutcome.got 0) = .ok [] := by
  refine ⟨rfl, ?_, ?_, rfl⟩
  · cases r <;> simp [reader]
  · intro e he
    cases r with
    | timedOut => cases he
    | ioErr => rfl
    | got size => cases he

/-- Claim C5 witness: at a concrete buffer, a timed-out read is the empty
success and a genuine I/O failure is the only error source. -/
theorem reader_timeout_empty_success_witness :
    reader true [9, 9] ReadOutcome.timedOut = .ok [] ∧
    ReadOutcome.ioErr = ReadOutcome.ioErr :=
  ⟨(reader_timeout_empty_success [9, 9] ReadOutcome.ioErr).1,
   (reader_timeout_empty_success [9, 9] ReadOutcome.ioErr).2.1.mp rfl⟩

/-- Claim C9: a read-output request with no active job fails with
not-found; on success the returned vector is the first `size` bytes the
job's read reported and never exceeds the 4096-byte buffer capacity. -/
theorem reader_not_found_and_bounded (buf : List Nat) (r : ReadOutcome)
    (size : Nat) :
    reader false buf r = .error .notFound ∧
    (buf.length = BUF_CAP → size ≤ BUF_CAP →
      reader true buf (ReadOutcome.got size) = .ok (buf.take size) ∧
      (buf.take size).length = size ∧ (buf.take size).length ≤ BUF_CAP) := by
  refine ⟨rfl, fun hbuf hsize => ⟨rfl, ?_, ?_⟩⟩
  · rw [List.length_take, hbuf]
    omega
  · rw [List.length_take, hbuf]
    omega

/-- Claim C9 witness: with a full 4096-byte buffer and a read reporting
3 bytes, the call returns exactly those first 3 bytes. -/
theorem reader_not_found_and_bounded_witness :
    reader false [] ReadOutcome.timedOut = .error .notFound ∧
    reader true (List.replicate BUF_CAP 7) (ReadOutcome.got 3) =
      .ok ((List.replicate BUF_CAP 7).take 3) ∧
    ((List.replicate BUF_CAP 7).take 3).length = 3 ∧
    ((List.replicate BUF_CAP 7).take 3).length ≤ BUF_CAP :=
  ⟨(reader_not_found_and_bounded [] ReadOutcome.timedOut 3).1,
   (reader_not_found_and_bounded (List.replicate BUF_CAP 7)
      (ReadOutcome.got 3) 3).2 (List.length_replicate BUF_CAP 7)
      (by norm_num [BUF_CAP])⟩

/-- Claim C4: the armed timeout task does nothing when the weak session
reference cannot be upgraded; after a successful upgrade it kills the
session's current job exactly when that job's uuid equals the uuid
captured at scheduling time, so a stale timeout never kills a newer
job. -/
theorem timeout_task_identity_check (s : St) (j : Job) (u : Nat) :
    timeoutFire none u = none ∧
    (s.sessionJob = some j → j.uuid ≠ u → timeoutFire (some s) u = some s) ∧
    (s.sessionJob = none → timeoutFire (some s) u = some s) ∧
    (s.sessionJob = some j → j.uuid = u →
      timeoutFire (some s) u = some (killJob s)) := by
  refine ⟨rfl, ?_, ?_, ?_⟩
  · intro hj hne
    rw [timeoutFire, hj]
    simp [hne]
  · intro hj
    rw [timeoutFire, hj]
    simp
  · intro hj he
    rw [timeoutFire, hj]
    simp [he]

/-- Claim C4 witness: a timeout captured for uuid 9 fires while `job0`
(uuid 5) occupies the slot and leaves the state untouched; a failed
upgrade does nothing. -/
theorem timeout_task_identity_check_witness :
    timeoutFire none 9 = none ∧
    timeoutFire (some stBusy) 9 = some stBusy :=
  ⟨(timeout_task_identity_check stBusy job0 9).1,
   (timeout_task_identity_check stBusy job0 9).2.1 rfl (by decide)⟩

/-- Claim C6: the "wasm" artifact is rejected with unsupported-media-type
unless it declares exactly `application/wasm`, rejected when it appears a
second time, and rejected with payload-too-large as soon as its streamed
size exceeds the quota-tier-decided limit — checked per arriving chunk, so
the staged bytes never exceed the limit; end to end, `root_post` applies
the limit decided from the request's quota tier. -/
theorem wasm_artifact_rules (lim : Nat) (f : UField) (fs : List UField)
    (w t : Option (List Nat)) (b : List Nat) (cfg : Cfg) (req : Req)
    (o : Oracle) (s : St) :
    (f.name = some "wasm" → f.contentType ≠ some "application/wasm" →
      ingestLoop lim (f :: fs) w t = .error .unsupportedMediaType) ∧
    (f.name = some "wasm" → f.contentType = some "application/wasm" →
      w.isSome → ingestLoop lim (f :: fs) w t = .error .badRequest) ∧
    (f.name = some "wasm" → f.contentType = some "application/wasm" →
      w = none → lim < chunksLen f.chunks →
      ingestLoop lim (f :: fs) w t = .error .payloadTooLarge) ∧
    (streamChunks lim f.chunks 0 [] = .error b → b.length ≤ lim) ∧
    (s.sessionJob = none → s.jobCount < cfg.jobs → req.fields = [f] →
      f.name = some "wasm" → f.contentType = some "application/wasm" →
      (cfg.limits.decide req.star).2 * 1024 * 1024 < chunksLen f.chunks →
      (root_post cfg req o s).1 = .error .payloadTooLarge) := by
  refine ⟨?_, ?_, ?_, ?_, ?_⟩
  · intro hn hct
    rw [ingestLoop, if_pos hn, if_pos hct]
  · intro hn hct hw
    rw [ingestLoop, if_pos hn, if_neg (by simp [hct]), if_pos hw]
  · intro hn hct hw hbig
    obtain ⟨bb, hbb⟩ :=
      (streamChunks_err_iff lim f.chunks 0 [] (Nat.zero_le lim)).mpr
        (by omega)
    rw [ingestLoop, if_pos hn, if_neg (by simp [hct]),
      if_neg (by simp [hw]), hbb]
  · intro hb
    exact streamChunks_err_bound lim f.chunks 0 [] b (Nat.zero_le lim)
      rfl hb
  · intro hslot hcount hfields hn hct hbig
    obtain ⟨bb, hbb⟩ :=
      (streamChunks_err_iff ((cfg.limits.decide req.star).2 * 1024 * 1024)
        f.chunks 0 [] (Nat.zero_le _)).mpr (by omega)
    have hing : ingest ((cfg.limits.decide req.star).2 * 1024 * 1024)
        req.fields = .error .payloadTooLarge := by
      rw [hfields, ingest, ingestLoop, if_pos hn, if_neg (by simp [hct]),
        if_neg (by simp), hbb]
    unfold root_post
    rw [hslot]
    simp only [if_neg (Nat.not_le.mpr hcount), hing]

/-- Claim C6 witness: with limit 0 a single 1-byte chunk is rejected as
payload-too-large. -/
theorem wasm_artifact_rules_witness :
    ingestLoop 0 [wasmField0] none none = .error .payloadTooLarge :=
  (wasm_artifact_rules 0 wasmField0 [] none none [] cfg0 req0 o0
    st0).2.2.1 rfl rfl rfl (by decide)

/-- Claim C7: the "toml" artifact is rejected when it declares any content
type or appears twice; it is rejected as payload-too-large exactly against
the fixed ceiling `TOML_MAX`, for every quota-tier wasm limit alike; parts
with any other name are skipped; and a stream missing either required
artifact can never produce a successful ingestion. -/
theorem toml_artifact_rules (lim lim2 : Nat) (f : UField)
    (fs fields : List UField) (w t : Option (List Nat)) :
    (f.name = some "toml" → f.contentType.isSome →
      ingestLoop lim (f :: fs) w t = .error .badRequest) ∧
    (f.name = some "toml" → f.contentType = none → t.isSome →
      ingestLoop lim (f :: fs) w t = .error .badRequest) ∧
    (f.name = some "toml" → f.contentType = none → t = none →
      TOML_MAX < chunksLen f.chunks →
      ingestLoop lim (f :: fs) w t = .error .payloadTooLarge) ∧
    (f.name ≠ some "wasm" → f.name ≠ some "toml" →
      ingestLoop lim (f :: fs) w t = ingestLoop lim fs w t) ∧
    ((∀ g ∈ fields, g.name ≠ some "wasm") →
      ∀ p, ingest lim2 fields ≠ .ok p) ∧
    ((∀ g ∈ fields, g.name ≠ some "toml") →
      ∀ p, ingest lim2 fields ≠ .ok p) := by
  refine ⟨?_, ?_, ?_, ?_, ?_, ?_⟩
  · intro hn hct
    have hnw : ¬ f.name = some "wasm" := by
      rw [hn]
      simp
    rw [ingestLoop, if_neg hnw, if_pos hn, if_pos hct]
  · intro hn hct ht
    have hnw : ¬ f.name = some "wasm" := by
      rw [hn]
      simp
    rw [ingestLoop, if_neg hnw, if_pos hn, if_neg (by simp [hct]),
      if_pos ht]
  · intro hn hct ht hbig
    have hnw : ¬ f.name = some "wasm" := by
      rw [hn]
      simp
    obtain ⟨bb, hbb⟩ :=
      (streamChunks_err_iff TOML_MAX f.chunks 0 []
        (Nat.zero_le TOML_MAX)).mpr (by omega)
    rw [ingestLoop, if_neg hnw, if_pos hn, if_neg (by simp [hct]),
      if_neg (by simp [ht]), hbb]
  · intro hnw hnt
    rw [ingestLoop, if_neg hnw, if_neg hnt]
  · intro hno p hok
    rw [ingest] at hok
    cases hloop : ingestLoop lim2 fields none none with
    | error e =>
      rw [hloop] at hok
      cases hok
    | ok pair =>
      rw [hloop] at hok
      obtain ⟨w', t'⟩ := pair
      have hw' : w' = none := ingestLoop_const_wasm lim2 fields none none
        w' t' hno hloop
      rw [hw'] at hok
      cases hok
  · intro hno p hok
    rw [ingest] at hok
    cases hloop : ingestLoop lim2 fields none none with
    | error e =>
      rw [hloop] at hok
      cases hok
    | ok pair =>
      rw [hloop] at hok
      obtain ⟨w', t'⟩ := pair
      have ht' : t' = none := ingestLoop_const_toml lim2 fields none none
        w' t' hno hloop
      rw [ht'] at hok
      cases w' with
      | none => cases hok
      | some wb => cases hok

/-- Claim C7 witness: a "toml" part declaring a content type is rejected,
and a stream with only a "toml" part never ingests successfully. -/
theorem toml_artifact_rules_witness :
    ingestLoop 9 [tomlFieldTyped] none none = .error .badRequest ∧
    ingest 9 [tomlField0] ≠ .ok ([1], [2]) :=
  ⟨(toml_artifact_rules 9 9 tomlFieldTyped [] [] none none).1 rfl rfl,
   (toml_artifact_rules 9 9 tomlField0 [] [tomlField0] none none).2.2.2.2.1
      (by intro g hg; simp [tomlField0] at hg; rw [hg]; simp [tomlField0])
      ([1], [2])⟩

/-- Oracle in which another task of the same user installs `job0` into
the session slot between the optimistic pre-check and the acquisition of
the session write lock (the registry is left as the request set it). -/
def oInterfereBusy : Oracle :=
  { parsePorts := fun _ => some [2500],
    interfere := fun s => { s with sessionJob := some job0, jobCount := 1 },
    spawnOk := true, uuid := 7 }

/-- Claim C1: admission is two-phase.  The optimistic pre-check rejects an
occupied slot or a reached ceiling before any expensive work (empty effect
trace, untouched state); the committing critical section installs a job
only when, under the session write lock, the slot is empty and the count
is below the ceiling; an occupied slot is rejected there unconditionally,
also when the occupation arose between the two phases. -/
theorem admission_two_phase (cfg : Cfg) (req : Req) (o : Oracle)
    (s s2 : St) (j : Job) (ports : List Nat) (u jm : Nat) (sp : Bool)
    (wb tb : List Nat) (s1 : St) :
    (s.sessionJob = some j →
      root_post cfg req o s = (.error .redirectRoot, s, [])) ∧
    (s.sessionJob = none → cfg.jobs ≤ s.jobCount →
      root_post cfg req o s = (.error .tooManyWorkloads, s, [])) ∧
    (∀ r, commitJob jm sp u ports s2 = .ok r →
      s2.sessionJob = none ∧ s2.jobCount < jm) ∧
    (s2.sessionJob = some j →
      commitJob jm sp u ports s2 = .error .redirectRoot) ∧
    (ingest ((cfg.limits.decide req.star).2 * 1024 * 1024) req.fields =
        .ok (wb, tb) →
      o.parsePorts tb = some ports →
      ports.filter
        (fun p => !(decide (cfg.port_min ≤ p) && decide (p < cfg.port_max)))
        = [] →
      tryReserve cfg.shared_port_protections ports s = .ok s1 →
      s.sessionJob = none → s.jobCount < cfg.jobs →
      (o.interfere s1).sessionJob = some j →
      root_post cfg req o s =
        (.error .redirectRoot, o.interfere s1, [Eff.upload])) := by
  refine ⟨?_, ?_, ?_, ?_, ?_⟩
  · intro h
    unfold root_post
    simp only [h]
  · intro h hle
    unfold root_post
    simp only [h, if_pos hle]
  · intro r hr
    simp only [commitJob] at hr
    cases hs : s2.sessionJob with
    | some jj =>
      rw [hs] at hr
      cases hr
    | none =>
      rw [hs] at hr
      by_cases hle : jm ≤ s2.jobCount
      · rw [if_pos hle] at hr
        cases hr
      · exact ⟨rfl, Nat.not_le.mp hle⟩
  · intro h
    simp only [commitJob, h]
  · intro hing hpp hleg hres hslot hcount hj
    unfold root_post
    simp only [hslot, if_neg (Nat.not_le.mpr hcount), hing, hpp, hleg,
      hres, commitJob, hj]
    simp

/-- Claim C1 witness: a request from `stBusy`, whose slot holds `job0`,
is rejected by the optimistic pre-check with no expensive work done. -/
theorem admission_two_phase_witness :
    root_post cfg0 req0 o0 stBusy = (.error .redirectRoot, stBusy, []) :=
  (admission_two_phase cfg0 req0 o0 stBusy st0 job0 [] 0 0 true [] []
    st0).1 rfl

/-- Claim C2, evaluated on the code at the failing inputs: after
`try_reserve` succeeds for port 2500, (a) a spawn failure and (b) a
session slot occupied at the committing re-check both reject the request
while port 2500 stays in the registry — no release happens on either
path before returning. -/
theorem reserved_ports_leak_on_rejection :
    root_post cfg0 req0 oSpawnFail st0 =
      (.error .internalServerError,
        { sessionJob := none, jobCount := 0, reserved := [2500] },
        [Eff.upload]) ∧
    root_post cfg0 req0 oInterfereBusy st0 =
      (.error .redirectRoot,
        { sessionJob := some job0, jobCount := 1, reserved := [2500] },
        [Eff.upload]) :=
  ⟨rfl, rfl⟩

/-- Claim C3, evaluated on the code at the failing input: with the
operator range 2000..30000, a configuration declaring exactly the upper
bound 30000 is rejected as illegal (the Rust `Range` built in
`Args::split` is half-open, so `port_max` itself is excluded), although
the claim, the spec and the CLI documentation of `port_max` ("the highest
listen port allowed") treat the range as inclusive.  The response does
name every offending port and the registry is untouched. -/
theorem boundary_port_rejected_as_illegal :
    root_post cfg0 req0 oBoundary st0 =
      (.error (.illegalPorts [30000]), st0, [Eff.upload]) :=
  rfl
